import Mathlib

/-!
Shallow embedding of the ShieldAML risk engine (`backend/ml_model.py`).

Python floats are modelled as exact rationals (`Rat`); the tree scores are
always small integers and the five ensemble weights (0.25, 0.20, 0.25,
0.15, 0.15) applied to integer tree scores were checked to produce the same
IEEE-754 double as the exact rational value on the concrete scenarios used
below, so the rational model agrees with the source arithmetic there.
Python's `round` (round half to even) is modelled by `pyRound`.
Dynamically typed raw inputs are modelled by the `Value` type; the Python
conversions `float`, `int`, `bool`, `str` are modelled by `pyFloat`,
`pyInt`, `pyBool`, `pyStr` (fallible ones return `Option`, mirroring
`ValueError`/`TypeError`).  String parsing in `pyFloat`/`pyInt` models the
plain decimal forms (optional sign, digits, optional fraction); `pyStr` of
a float value is approximated (never a country code or type keyword, which
is all the engine compares strings against).  `str.lower` is modelled by
`strLower` (ASCII, enough for the country codes and names involved).
-/

instance {ε α : Type} [DecidableEq ε] [DecidableEq α] : DecidableEq (Except ε α) := fun x y =>
  match x, y with
  | Except.ok a, Except.ok b =>
      if h : a = b then isTrue (by rw [h]) else isFalse (by intro hc; cases hc; exact h rfl)
  | Except.error e, Except.error e' =>
      if h : e = e' then isTrue (by rw [h]) else isFalse (by intro hc; cases hc; exact h rfl)
  | Except.ok _, Except.error _ => isFalse (by intro hc; cases hc)
  | Except.error _, Except.ok _ => isFalse (by intro hc; cases hc)

namespace ShieldAML

/-- A dynamically typed Python value, as far as the engine inspects one. -/
inductive Value where
  | vNone : Value
  | vBool : Bool → Value
  | vInt : Int → Value
  | vFloat : Rat → Value
  | vStr : String → Value
deriving DecidableEq

def digitsToNat (l : List Char) : Nat :=
  l.foldl (fun a c => a * 10 + (c.toNat - 48)) 0

def allDigits (l : List Char) : Bool :=
  l.all Char.isDigit

/-- Numeric-string parsing for Python `float(s)`: optional sign, digits with
an optional single decimal point.  Anything else raises, i.e. `none`. -/
def parseUnsignedDec (l : List Char) : Option Rat :=
  let ip := l.takeWhile (fun c => c != '.')
  let rest := l.dropWhile (fun c => c != '.')
  match rest with
  | [] => if !ip.isEmpty && allDigits ip then some (digitsToNat ip) else Option.none
  | _ :: fp =>
      if allDigits ip && allDigits fp && (!ip.isEmpty || !fp.isEmpty) then
        some ((digitsToNat ip : Rat) + (digitsToNat fp : Rat) / ((10 ^ fp.length : Nat) : Rat))
      else Option.none

def parseDecimal (s : String) : Option Rat :=
  match s.toList with
  | '-' :: rest => (parseUnsignedDec rest).map Neg.neg
  | '+' :: rest => parseUnsignedDec rest
  | l => parseUnsignedDec l

/-- Integer-string parsing for Python `int(s)`: optional sign, digits only. -/
def parseIntStr (s : String) : Option Int :=
  let core : List Char → Option Int := fun l =>
    if !l.isEmpty && allDigits l then some (digitsToNat l : Int) else Option.none
  match s.toList with
  | '-' :: rest => (core rest).map Neg.neg
  | '+' :: rest => core rest
  | l => core l

/-- Truncation toward zero, Python `int()` applied to a float. -/
def ratTrunc (q : Rat) : Int :=
  q.num / (q.den : Int)

/-- Python `float(v)`; `none` models a raised `ValueError`/`TypeError`. -/
def pyFloat : Value → Option Rat
  | Value.vNone => Option.none
  | Value.vBool b => some (if b then 1 else 0)
  | Value.vInt n => some (n : Rat)
  | Value.vFloat q => some q
  | Value.vStr s => parseDecimal s

/-- Python `int(v)`; `none` models a raised `ValueError`/`TypeError`. -/
def pyInt : Value → Option Int
  | Value.vNone => Option.none
  | Value.vBool b => some (if b then 1 else 0)
  | Value.vInt n => some n
  | Value.vFloat q => some (ratTrunc q)
  | Value.vStr s => parseIntStr s

/-- Python `bool(v)` — total. -/
def pyBool : Value → Bool
  | Value.vNone => false
  | Value.vBool b => b
  | Value.vInt n => n != 0
  | Value.vFloat q => q != 0
  | Value.vStr s => s != ""

/-- Python `str(v)` — total.  The float case is an approximation (see the
file comment); it is only ever compared against country codes and
transaction-type keywords, which it can never equal. -/
def pyStr : Value → String
  | Value.vNone => "None"
  | Value.vBool b => if b then "True" else "False"
  | Value.vInt n => toString n
  | Value.vFloat q => toString q
  | Value.vStr s => s

/-- ASCII lowercasing of one char, Python `str.lower` per character. -/
def asciiLower (c : Char) : Char :=
  if 65 <= c.toNat && c.toNat <= 90 then Char.ofNat (c.toNat + 32) else c

/-- Python `str.lower`, modelled structurally over the char list (ASCII;
enough for the country codes, type keywords and names the engine compares). -/
def strLower (s : String) : String :=
  String.mk (s.data.map asciiLower)

/-- Python `round` — round half to even, on our rational model of floats. -/
def pyRound (q : Rat) : Int :=
  let fl := q.floor
  let frac := q - (fl : Rat)
  if frac < 1 / 2 then fl
  else if (1 : Rat) / 2 < frac then fl + 1
  else if fl % 2 = 0 then fl else fl + 1

/-- Python float `x % y` for `y > 0`: `x - y * floor (x / y)`. -/
def pyFloatMod (x y : Rat) : Rat :=
  x - y * ((x / y).floor : Rat)

/-- Python `min(a, b)` on two floats: the first argument on ties. -/
def pyMin (a b : Rat) : Rat :=
  if a ≤ b then a else b

/-- Python `min(a, b)` on two ints: the first argument on ties. -/
def pyMinInt (a b : Int) : Int :=
  if a ≤ b then a else b

-- ── Constants (ml_model.py lines 12-17) ─────────────────────────────────

def SANCTIONED_COUNTRIES : List String :=
  ["ir", "kp", "ru", "sy", "sd", "by", "cu", "mm"]

def HIGH_RISK_COUNTRIES : List String :=
  ["ir", "kp", "ru", "sy", "sd", "pk", "af", "by", "cu", "mm", "iq", "ly", "ye", "so"]

def NORMAL_COUNTRIES : List String :=
  ["ae", "sa", "eg", "us", "uk", "de", "fr", "jp", "sg", "au", "ca", "ch", "nl"]

def REPORTING_THRESHOLD : Rat := 10000

def STRUCTURING_LIMIT : Rat := 9500

-- ── Raw transaction input (the keys `extract_features` reads) ───────────

/-- The raw transaction dict, restricted to the keys the engine reads.
A field is `Option.none` when the key is absent from the dict. -/
structure RawTx where
  transaction_id : Option Value := Option.none
  amount : Option Value := Option.none
  country : Option Value := Option.none
  type : Option Value := Option.none
  hour : Option Value := Option.none
  tx_count_30d : Option Value := Option.none
  account_age_months : Option Value := Option.none
  kyc_status : Option Value := Option.none
  previously_flagged : Option Value := Option.none
  is_pep : Option Value := Option.none
deriving DecidableEq

/-- The raw fields of the feature dict built by `extract_features`.  The
derived boolean entries of that dict are pure functions of these fields
and are modelled as the projections below. -/
structure Features where
  amount : Rat
  country : String
  tx_type : String
  hour : Int
  tx_count : Int
  account_age : Int
  kyc_status : Int
  prev_flagged : Bool
  is_pep : Bool
deriving DecidableEq

def Features.is_sanctioned (f : Features) : Bool :=
  decide (f.country ∈ SANCTIONED_COUNTRIES)

def Features.is_high_risk (f : Features) : Bool :=
  decide (f.country ∈ HIGH_RISK_COUNTRIES)

def Features.is_night (f : Features) : Bool :=
  decide (f.hour < 6)

def Features.above_threshold (f : Features) : Bool :=
  decide (REPORTING_THRESHOLD ≤ f.amount)

def Features.near_threshold (f : Features) : Bool :=
  decide (STRUCTURING_LIMIT ≤ f.amount ∧ f.amount < REPORTING_THRESHOLD)

def Features.is_new_account (f : Features) : Bool :=
  decide (f.account_age < 3)

def Features.is_high_velocity (f : Features) : Bool :=
  decide (15 < f.tx_count)

def Features.is_round_amount (f : Features) : Bool :=
  decide (1000 < f.amount ∧ pyFloatMod f.amount 1000 = 0)

def Features.kyc_incomplete (f : Features) : Bool :=
  decide (f.kyc_status = 0)

def orRaise (o : Option α) (msg : String) : Except String α :=
  match o with
  | some a => Except.ok a
  | Option.none => Except.error msg

/-- Model of `extract_features` (ml_model.py lines 38-69).  The Python conversions
can raise on present-but-unconvertible values; this is the `Except.error`
case, produced in source order (`amount` first). -/
def extract_features (data : RawTx) : Except String Features := do
  let amount ← orRaise (pyFloat (data.amount.getD (Value.vInt 0))) "ValueError"
  let country := strLower (pyStr (data.country.getD (Value.vStr "")))
  let tx_type := strLower (pyStr (data.type.getD (Value.vStr "")))
  let hour ← orRaise (pyInt (data.hour.getD (Value.vInt 12))) "ValueError"
  let tx_count ← orRaise (pyInt (data.tx_count_30d.getD (Value.vInt 0))) "ValueError"
  let account_age ← orRaise (pyInt (data.account_age_months.getD (Value.vInt 12))) "ValueError"
  let kyc_status ← orRaise (pyInt (data.kyc_status.getD (Value.vInt 1))) "ValueError"
  let prev_flagged := pyBool (data.previously_flagged.getD (Value.vBool false))
  let is_pep := pyBool (data.is_pep.getD (Value.vBool false))
  Except.ok
    { amount := amount, country := country, tx_type := tx_type, hour := hour,
      tx_count := tx_count, account_age := account_age, kyc_status := kyc_status,
      prev_flagged := prev_flagged, is_pep := is_pep }

-- ── Decision trees (ml_model.py lines 73-131) ───────────────────────────

/-- Tree 1: sanctions and transaction amount. -/
def tree_sanctions_amount (f : Features) : Rat :=
  let score : Rat := 0
  let score := if f.is_sanctioned then score + 45
               else if f.is_high_risk then score + 20 else score
  let score := if 100000 < f.amount then score + 25
               else if 50000 < f.amount then score + 18
               else if 10000 < f.amount then score + 10 else score
  let score := if f.is_night then score + 15 else score
  let score := if f.above_threshold then score + 10 else score
  pyMin score 100

/-- Tree 2: account age and behavioural patterns. -/
def tree_account_behavior (f : Features) : Rat :=
  let score : Rat := 0
  let score := if f.is_new_account then score + 30 else score
  let score := if f.is_high_velocity then score + 20 else score
  let score := if f.prev_flagged then score + 30 else score
  let score := if f.kyc_incomplete then score + 25 else score
  let score := if f.is_pep then score + 20 else score
  let score := if f.is_round_amount then score + 10 else score
  pyMin score 100

/-- Tree 3: transaction type + country combination. -/
def tree_type_country_combo (f : Features) : Rat :=
  let score : Rat := 0
  let score := if f.tx_type == "crypto" && f.is_high_risk then score + 55 else score
  let score := if f.tx_type == "cash" && f.near_threshold then score + 40 else score
  let score := if f.tx_type == "wire" && f.is_sanctioned then score + 50 else score
  let score := if f.tx_type == "insurance" && decide (100000 < f.amount) then score + 25 else score
  let score := if f.tx_type == "crypto" && f.is_sanctioned then score + 60 else score
  let score := if f.is_high_risk && f.is_night then score + 20 else score
  pyMin score 100

/-- Tree 4: KYC and transaction velocity. -/
def tree_kyc_velocity (f : Features) : Rat :=
  let score : Rat := 0
  let score := if f.kyc_incomplete && decide (5000 < f.amount) then score + 40 else score
  let score := if f.is_high_velocity && f.is_new_account then score + 40 else score
  let score := if f.prev_flagged && decide (10000 < f.amount) then score + 35 else score
  let score := if f.is_pep && f.above_threshold then score + 30 else score
  let score := if f.near_threshold then score + 15 else score
  pyMin score 100

def riskSignals (f : Features) : List Bool :=
  [f.is_night, f.is_new_account, decide (25000 < f.amount), f.is_high_risk,
   f.prev_flagged, f.kyc_incomplete, f.is_high_velocity, f.is_pep]

/-- Tree 5: anomaly detection over eight combined risk signals. -/
def tree_anomaly_isolation (f : Features) : Rat :=
  let n := (riskSignals f).count true
  let combo : Rat := (n : Rat) * 12
  let combo := if 4 ≤ n then combo + 15 else combo
  pyMin combo 100

-- ── Random forest ensemble (ml_model.py lines 135-163) ──────────────────

/-- Risk tier from the final integer score (ml_model.py lines 152-157):
evaluated high to low, first match wins. -/
def risk_level_of (s : Int) : String :=
  if 80 ≤ s then "CRITICAL"
  else if 60 ≤ s then "HIGH"
  else if 35 ≤ s then "MEDIUM"
  else "LOW"

structure Prediction where
  score : Int
  risk_level : String
  trees : List (String × Int)
deriving DecidableEq

def weighted_score (f : Features) : Rat :=
  tree_sanctions_amount f * (25 / 100) +
  tree_account_behavior f * (20 / 100) +
  tree_type_country_combo f * (25 / 100) +
  tree_kyc_velocity f * (15 / 100) +
  tree_anomaly_isolation f * (15 / 100)

def random_forest_predict (f : Features) : Prediction :=
  let final_score := pyRound (pyMin (weighted_score f) 100)
  { score := final_score,
    risk_level := risk_level_of final_score,
    trees :=
      [("Sanctions & Amount", pyRound (tree_sanctions_amount f)),
       ("Account Behavior", pyRound (tree_account_behavior f)),
       ("Type & Country Combo", pyRound (tree_type_country_combo f)),
       ("KYC & Velocity", pyRound (tree_kyc_velocity f)),
       ("Anomaly Detection", pyRound (tree_anomaly_isolation f))] }

-- ── Flag detection (ml_model.py lines 19-34 and 167-236) ────────────────

structure Flag where
  code : String
  severity : String
  description : String
  fatf_ref : String
deriving DecidableEq

def FATF_RED_FLAGS : List (String × String) :=
  [("sanctioned_country", "Transaction to/from FATF sanctioned jurisdiction"),
   ("high_risk_country", "Destination is FATF high-risk jurisdiction"),
   ("night_transaction", "Transaction executed during unusual hours (00:00-05:59)"),
   ("threshold_breach", "Amount exceeds mandatory reporting threshold ($10,000)"),
   ("structuring_suspected", "Amount near reporting threshold - possible structuring"),
   ("new_account_large", "Large transaction from recently opened account"),
   ("high_velocity", "Abnormally high transaction frequency in 30-day period"),
   ("incomplete_kyc", "Customer identity not fully verified (incomplete KYC)"),
   ("repeat_offender", "Customer has prior suspicious activity on record"),
   ("crypto_highrisk", "Cryptocurrency transfer to high-risk jurisdiction"),
   ("cash_threshold", "Large cash transaction near reporting threshold"),
   ("pep_linked", "Customer linked to Politically Exposed Person (PEP)"),
   ("round_amount", "Suspiciously round transaction amount"),
   ("multiple_countries", "Transactions to multiple countries in short period")]

def fatfDesc (code : String) : String :=
  ((FATF_RED_FLAGS.find? (fun p => p.1 == code)).map Prod.snd).getD ""

def flag_sanctioned : Flag :=
  ⟨"sanctioned_country", "CRITICAL", fatfDesc "sanctioned_country", "FATF Recommendation 6"⟩

def flag_high_risk_country : Flag :=
  ⟨"high_risk_country", "HIGH", fatfDesc "high_risk_country", "FATF Recommendation 19"⟩

def flag_night : Flag :=
  ⟨"night_transaction", "MEDIUM", fatfDesc "night_transaction", "FATF Typologies Report 2023"⟩

def flag_threshold : Flag :=
  ⟨"threshold_breach", "HIGH", fatfDesc "threshold_breach", "FRA Law 161/2024 Art. 14"⟩

def flag_structuring : Flag :=
  ⟨"structuring_suspected", "HIGH", fatfDesc "structuring_suspected", "FATF Recommendation 3"⟩

def flag_new_account_large : Flag :=
  ⟨"new_account_large", "HIGH", fatfDesc "new_account_large", "FATF Recommendation 10"⟩

def flag_high_velocity : Flag :=
  ⟨"high_velocity", "MEDIUM", fatfDesc "high_velocity", "FATF Typologies Report 2023"⟩

def flag_incomplete_kyc : Flag :=
  ⟨"incomplete_kyc", "HIGH", fatfDesc "incomplete_kyc", "FATF Recommendation 10"⟩

def flag_repeat_offender : Flag :=
  ⟨"repeat_offender", "HIGH", fatfDesc "repeat_offender", "FRA Law 161/2024 Art. 18"⟩

def flag_crypto_highrisk : Flag :=
  ⟨"crypto_highrisk", "CRITICAL", fatfDesc "crypto_highrisk", "FATF Recommendation 15"⟩

def flag_pep : Flag :=
  ⟨"pep_linked", "HIGH", fatfDesc "pep_linked", "FATF Recommendation 12"⟩

def flag_round_amount : Flag :=
  ⟨"round_amount", "LOW", fatfDesc "round_amount", "FATF Typologies Report 2023"⟩

def clean_flag : Flag :=
  ⟨"clean", "NONE", "No significant FATF red flags detected", "N/A"⟩

/-- Model of `if cond: flags.append(g)` — the conditional contribution of one
red-flag predicate to the flag list. -/
def flagIf (c : Bool) (g : Flag) : List Flag :=
  if c then [g] else []

/-- The list built by the twelve sequential predicate checks of
`detect_flags`, before the clean-sentinel fallback. -/
def detect_base (f : Features) : List Flag :=
  flagIf f.is_sanctioned flag_sanctioned ++
  flagIf (f.is_high_risk && !f.is_sanctioned) flag_high_risk_country ++
  flagIf f.is_night flag_night ++
  flagIf f.above_threshold flag_threshold ++
  flagIf f.near_threshold flag_structuring ++
  flagIf (f.is_new_account && decide (5000 < f.amount)) flag_new_account_large ++
  flagIf f.is_high_velocity flag_high_velocity ++
  flagIf f.kyc_incomplete flag_incomplete_kyc ++
  flagIf f.prev_flagged flag_repeat_offender ++
  flagIf (f.tx_type == "crypto" && f.is_high_risk) flag_crypto_highrisk ++
  flagIf f.is_pep flag_pep ++
  flagIf (f.is_round_amount && decide (5000 < f.amount)) flag_round_amount

/-- Disjunction of the twelve red-flag predicates of `detect_flags`. -/
def red_flag_fired (f : Features) : Bool :=
  f.is_sanctioned ||
  (f.is_high_risk && !f.is_sanctioned) ||
  f.is_night ||
  f.above_threshold ||
  f.near_threshold ||
  (f.is_new_account && decide (5000 < f.amount)) ||
  f.is_high_velocity ||
  f.kyc_incomplete ||
  f.prev_flagged ||
  (f.tx_type == "crypto" && f.is_high_risk) ||
  f.is_pep ||
  (f.is_round_amount && decide (5000 < f.amount))

/-- Model of `detect_flags` (ml_model.py lines 167-236). -/
def detect_flags (f : Features) : List Flag :=
  if (detect_base f).isEmpty then [clean_flag] else detect_base f

-- ── Recommendation (ml_model.py lines 240-290) ──────────────────────────

structure Recommendation where
  action : String
  steps : List String
  str_required : Bool
  edd_required : Bool
deriving DecidableEq

def rec_critical : Recommendation :=
  { action := "FREEZE & REPORT",
    steps :=
      ["Immediately freeze the transaction",
       "File STR with Egyptian Financial Intelligence Unit (EIFIU) within 24 hours",
       "Escalate to MLRO and senior management",
       "Apply Enhanced Due Diligence (EDD) on customer",
       "Document all findings with audit trail",
       "Do NOT tip off the customer (tipping-off offence under FRA 161/2024)"],
    str_required := true, edd_required := true }

def rec_high : Recommendation :=
  { action := "REVIEW & ESCALATE",
    steps :=
      ["Place transaction on hold pending review",
       "Escalate to compliance supervisor",
       "Apply Enhanced Due Diligence (EDD)",
       "Consider filing STR if suspicion confirmed",
       "Request additional documentation from customer"],
    str_required := false, edd_required := true }

def rec_medium : Recommendation :=
  { action := "ENHANCED MONITORING",
    steps :=
      ["Allow transaction but flag for monitoring",
       "Apply Standard Customer Due Diligence (CDD)",
       "Request source of funds documentation",
       "Increase monitoring frequency for this customer"],
    str_required := false, edd_required := false }

def rec_low : Recommendation :=
  { action := "PROCEED - STANDARD MONITORING",
    steps :=
      ["Transaction may proceed",
       "Apply standard CDD procedures",
       "Continue routine monitoring"],
    str_required := false, edd_required := false }

/-- Model of `get_recommendation`, i.e. `actions.get(risk_level, actions["LOW"])`.  The
`flags` argument is taken but unused, as in the source. -/
def get_recommendation (risk_level : String) (_flags : List Flag) : Recommendation :=
  if risk_level == "CRITICAL" then rec_critical
  else if risk_level == "HIGH" then rec_high
  else if risk_level == "MEDIUM" then rec_medium
  else rec_low

-- ── Main analyze function (ml_model.py lines 294-316) ───────────────────

structure AnalysisResult where
  transaction_id : Value
  timestamp : String
  score : Int
  risk_level : String
  tree_scores : List (String × Int)
  flags : List Flag
  flag_count : Nat
  recommendation : Recommendation
  model_version : String
  compliance_ref : String
deriving DecidableEq

/-- The pure core of `analyze_transaction`, once features are extracted.
`txid` is `data.get("transaction_id", f"TXN-{random.randint(...)}")` and
`now` the wall-clock timestamp, both supplied by the environment. -/
def analyze_features (f : Features) (txid : Value) (now : String) : AnalysisResult :=
  let prediction := random_forest_predict f
  let flags := detect_flags f
  { transaction_id := txid,
    timestamp := now,
    score := prediction.score,
    risk_level := prediction.risk_level,
    tree_scores := prediction.trees,
    flags := flags,
    flag_count := (flags.filter (fun g => g.code != "clean")).length,
    recommendation := get_recommendation prediction.risk_level flags,
    model_version := "ShieldAML-RF-v1.0",
    compliance_ref := "FATF 2023 - FRA Law 161/2024 - UN Sanctions" }

/-- Model of `analyze_transaction` (ml_model.py lines 294-316).  `genId` models the
draw of `random.randint(10000, 99999)` and `now` the clock reading. -/
def analyze_transaction (data : RawTx) (genId : Nat) (now : String) :
    Except String AnalysisResult :=
  (extract_features data).map fun f =>
    analyze_features f (data.transaction_id.getD (Value.vStr ("TXN-" ++ toString genId))) now

-- ── KYC analysis (ml_model.py lines 320-362) ────────────────────────────

def SANCTIONS_LIST : List String :=
  ["kim jong", "putin vladimir", "khamenei", "al-bashir", "lukashenko",
   "maduro nicolas", "al-assad", "gaddafi"]

def pep_keywords : List String :=
  ["minister", "president", "senator", "official", "politician",
   "ambassador", "governor", "parliament", "general", "director general"]

/-- Does the second char list start with the first one?  Building block of
the Python substring test. -/
def listStarts : List Char → List Char → Bool
  | [], _ => true
  | _ :: _, [] => false
  | p :: ps, h :: t => p == h && listStarts ps t

/-- Substring search over char lists, Python `pat in hay` on strings. -/
def subSearch (pat : List Char) : List Char → Bool
  | [] => listStarts pat []
  | h :: t => listStarts pat (h :: t) || subSearch pat t

/-- Python `pat in hay` for strings. -/
def strIn (pat hay : String) : Bool :=
  subSearch pat.toList hay.toList

/-- The raw KYC dict, restricted to the keys `analyze_kyc` reads. -/
structure RawKyc where
  name : Option Value := Option.none
  nationality : Option Value := Option.none
  occupation : Option Value := Option.none
  country : Option Value := Option.none
deriving DecidableEq

structure KYCResult where
  customer_name : Option Value
  risk_score : Int
  risk_level : String
  sanctions_match : Bool
  is_pep : Bool
  high_risk_nationality : Bool
  cdd_level : String
  str_required : Bool
  timestamp : String
deriving DecidableEq

def kyc_name (d : RawKyc) : String :=
  strLower (pyStr (d.name.getD (Value.vStr "")))

def kyc_nationality (d : RawKyc) : String :=
  strLower (pyStr (d.nationality.getD (Value.vStr "")))

def kyc_occupation (d : RawKyc) : String :=
  strLower (pyStr (d.occupation.getD (Value.vStr "")))

def kyc_is_pep (d : RawKyc) : Bool :=
  pep_keywords.any (fun kw => strIn kw (kyc_occupation d))

def kyc_sanctions_hit (d : RawKyc) : Bool :=
  SANCTIONS_LIST.any (fun p => strIn p (kyc_name d))

def kyc_high_risk_nat (d : RawKyc) : Bool :=
  decide (kyc_nationality d ∈ HIGH_RISK_COUNTRIES.map strLower)

def kyc_risk_score (d : RawKyc) : Int :=
  (if kyc_sanctions_hit d then 90 else 0) +
  (if kyc_is_pep d then 40 else 0) +
  (if kyc_high_risk_nat d then 25 else 0)

/-- KYC tier cutoffs (ml_model.py lines 343-348) — distinct from the
transaction tiers. -/
def kyc_risk_level_of (s : Int) : String :=
  if 80 ≤ s then "CRITICAL"
  else if 40 ≤ s then "HIGH"
  else if 20 ≤ s then "MEDIUM"
  else "LOW"

/-- Model of `analyze_kyc` (ml_model.py lines 325-362); `now` models the clock. -/
def analyze_kyc (d : RawKyc) (now : String) : KYCResult :=
  let risk_level := kyc_risk_level_of (kyc_risk_score d)
  { customer_name := d.name,
    risk_score := pyMinInt (kyc_risk_score d) 100,
    risk_level := risk_level,
    sanctions_match := kyc_sanctions_hit d,
    is_pep := kyc_is_pep d,
    high_risk_nationality := kyc_high_risk_nat d,
    cdd_level := if risk_level = "CRITICAL" ∨ risk_level = "HIGH" then "EDD" else "Standard CDD",
    str_required := kyc_sanctions_hit d,
    timestamp := now }

-- ── Concrete inputs used by the claims ──────────────────────────────────

/-- Spec Scenario A: amount=125000, type=wire, country="ir", hour=3,
tx_count_30d=8, account_age=2, kyc_status=incomplete, no prior flag, no PEP. -/
def scenarioA : RawTx :=
  { transaction_id := Option.none,
    amount := some (Value.vFloat 125000),
    country := some (Value.vStr "ir"),
    type := some (Value.vStr "wire"),
    hour := some (Value.vInt 3),
    tx_count_30d := some (Value.vInt 8),
    account_age_months := some (Value.vInt 2),
    kyc_status := some (Value.vInt 0),
    previously_flagged := some (Value.vBool false),
    is_pep := some (Value.vBool false) }

/-- Spec Scenario B: amount=9800, type=cash, country="eg", hour=16,
tx_count_30d=7, account_age=12, kyc_status=verified, no prior flag, no PEP. -/
def scenarioB : RawTx :=
  { transaction_id := Option.none,
    amount := some (Value.vFloat 9800),
    country := some (Value.vStr "eg"),
    type := some (Value.vStr "cash"),
    hour := some (Value.vInt 16),
    tx_count_30d := some (Value.vInt 7),
    account_age_months := some (Value.vInt 12),
    kyc_status := some (Value.vInt 1),
    previously_flagged := some (Value.vBool false),
    is_pep := some (Value.vBool false) }

/-- A raw dict whose `amount` key holds the non-numeric string `"abc"`:
Python `float("abc")` raises `ValueError` inside `extract_features`. -/
def invalidAmountTx : RawTx :=
  { amount := some (Value.vStr "abc") }

/-- All the Python conversions inside `extract_features` succeed on this
input (the string conversions are total, so only the fallible five appear). -/
def convertibleTx (data : RawTx) : Bool :=
  (pyFloat (data.amount.getD (Value.vInt 0))).isSome &&
  (pyInt (data.hour.getD (Value.vInt 12))).isSome &&
  (pyInt (data.tx_count_30d.getD (Value.vInt 0))).isSome &&
  (pyInt (data.account_age_months.getD (Value.vInt 12))).isSome &&
  (pyInt (data.kyc_status.getD (Value.vInt 1))).isSome

def exceptIsOk {α : Type} : Except String α → Bool
  | Except.ok _ => true
  | Except.error _ => false

/-- A crypto transaction to the sanctioned country "ir" with no other
tree-3 condition active (day-time hour, small amount). -/
def cryptoSanctionedExample : Features :=
  { amount := 500, country := "ir", tx_type := "crypto", hour := 12, tx_count := 0,
    account_age := 12, kyc_status := 1, prev_flagged := false, is_pep := false }

/-- A KYC profile whose name contains the sanctioned entity, with benign
remaining fields. -/
def putinKyc : RawKyc :=
  { name := some (Value.vStr "Putin Vladimir Testovich"),
    nationality := some (Value.vStr "fr"),
    occupation := some (Value.vStr "baker"),
    country := some (Value.vStr "fr") }

-- ── Helper lemmas ───────────────────────────────────────────────────────

theorem flagIf_eq_nil {c : Bool} {g : Flag} : flagIf c g = [] ↔ c = false := by
  cases c <;> simp [flagIf]

theorem any_flagIf (c : Bool) (g : Flag) (p : Flag → Bool) :
    (flagIf c g).any p = (c && p g) := by
  cases c <;> simp [flagIf]

theorem all_flagIf (c : Bool) (g : Flag) (p : Flag → Bool) :
    (flagIf c g).all p = (!c || p g) := by
  cases c <;> simp [flagIf]

theorem detect_base_eq_nil (f : Features) :
    detect_base f = [] ↔ red_flag_fired f = false := by
  simp only [detect_base, red_flag_fired, List.append_eq_nil, flagIf_eq_nil,
    Bool.or_eq_false_iff]

theorem detect_base_all_not_clean (f : Features) :
    (detect_base f).all (fun g => g.code != "clean") = true := by
  simp [detect_base, List.all_append, all_flagIf, flag_sanctioned, flag_high_risk_country,
    flag_night, flag_threshold, flag_structuring, flag_new_account_large, flag_high_velocity,
    flag_incomplete_kyc, flag_repeat_offender, flag_crypto_highrisk, flag_pep,
    flag_round_amount, fatfDesc]

theorem mem_detect_base_code {f : Features} {g : Flag} (hg : g ∈ detect_base f) :
    (g.code == "clean") = false := by
  have h := List.all_eq_true.mp (detect_base_all_not_clean f) g hg
  simpa [bne] using h

-- ── Claim theorems ──────────────────────────────────────────────────────

/-- C3: the risk tier of the ensemble is a function of the final integer
score with closed-below boundaries, evaluated high to low, first match
wins: `s ≥ 80 → CRITICAL`, `60 ≤ s < 80 → HIGH`, `35 ≤ s < 60 → MEDIUM`,
`s < 35 → LOW`; in particular 80 ↦ CRITICAL, 79, 60 ↦ HIGH, 59, 35 ↦
MEDIUM, 34 ↦ LOW; and no tier outside the four ever occurs. -/
theorem risk_tier_of_score :
    (∀ f : Features,
      (random_forest_predict f).risk_level = risk_level_of (random_forest_predict f).score) ∧
    (∀ s : Int,
      (80 ≤ s → risk_level_of s = "CRITICAL") ∧
      (60 ≤ s → s < 80 → risk_level_of s = "HIGH") ∧
      (35 ≤ s → s < 60 → risk_level_of s = "MEDIUM") ∧
      (s < 35 → risk_level_of s = "LOW") ∧
      (risk_level_of s = "LOW" ∨ risk_level_of s = "MEDIUM" ∨
       risk_level_of s = "HIGH" ∨ risk_level_of s = "CRITICAL")) ∧
    risk_level_of 80 = "CRITICAL" ∧ risk_level_of 79 = "HIGH" ∧
    risk_level_of 60 = "HIGH" ∧ risk_level_of 59 = "MEDIUM" ∧
    risk_level_of 35 = "MEDIUM" ∧ risk_level_of 34 = "LOW" := by
  refine ⟨fun f => rfl, fun s => ⟨?_, ?_, ?_, ?_, ?_⟩, by decide⟩
  · intro h; unfold risk_level_of; rw [if_pos h]
  · intro h1 h2; unfold risk_level_of; rw [if_neg (by omega), if_pos h1]
  · intro h1 h2; unfold risk_level_of; rw [if_neg (by omega), if_neg (by omega), if_pos h1]
  · intro h; unfold risk_level_of
    rw [if_neg (by omega), if_neg (by omega), if_neg (by omega)]
  · unfold risk_level_of; split_ifs <;> simp

/-- Witness for C3: the tier function applied at concrete scores,
discharging the boundary hypotheses. -/
theorem risk_tier_of_score_witness :
    risk_level_of 85 = "CRITICAL" ∧ risk_level_of 61 = "HIGH" ∧
    risk_level_of 40 = "MEDIUM" ∧ risk_level_of 10 = "LOW" :=
  ⟨(risk_tier_of_score.2.1 85).1 (by decide),
   (risk_tier_of_score.2.1 61).2.1 (by decide) (by decide),
   (risk_tier_of_score.2.1 40).2.2.1 (by decide) (by decide),
   (risk_tier_of_score.2.1 10).2.2.2.1 (by decide)⟩

theorem analyze_features_flag_count (f : Features) (txid : Value) (now : String) :
    (analyze_features f txid now).flag_count
      = ((detect_flags f).filter (fun g => g.code != "clean")).length := rfl

/-- C4: `detect_flags` never returns an empty list; it returns exactly the
clean sentinel iff none of the twelve red-flag predicates fired; and the
`flag_count` of the analysis result counts exactly the non-clean flags, so
it is 0 iff the list is the clean sentinel alone. -/
theorem detect_flags_clean_sentinel :
    ∀ (f : Features) (txid : Value) (now : String),
      (detect_flags f).isEmpty = false ∧
      (detect_flags f = [clean_flag] ↔ red_flag_fired f = false) ∧
      (analyze_features f txid now).flag_count
        = ((detect_flags f).filter (fun g => g.code != "clean")).length ∧
      ((analyze_features f txid now).flag_count = 0 ↔ detect_flags f = [clean_flag]) := by
  intro f txid now
  by_cases hb : detect_base f = []
  · have hflags : detect_flags f = [clean_flag] := by simp [detect_flags, hb]
    have hcount : (analyze_features f txid now).flag_count = 0 := by
      rw [analyze_features_flag_count, hflags]; decide
    exact ⟨by rw [hflags]; rfl,
      by rw [hflags]; simp [(detect_base_eq_nil f).mp hb],
      analyze_features_flag_count f txid now,
      by rw [hcount, hflags]; simp⟩
  · have hbe : (detect_base f).isEmpty = false := by
      cases hdb : detect_base f with
      | nil => exact absurd hdb hb
      | cons a l => rfl
    have hflags : detect_flags f = detect_base f := by simp [detect_flags, hbe]
    have hnotclean : detect_flags f = [clean_flag] → False := by
      intro h
      have hmem : clean_flag ∈ detect_base f := by
        rw [← hflags, h]; exact List.mem_singleton_self _
      exact absurd (mem_detect_base_code hmem) (by decide)
    have hfilter : (detect_base f).filter (fun g => g.code != "clean") = detect_base f := by
      rw [List.filter_eq_self]
      intro g hg
      simp [bne, mem_detect_base_code hg]
    have hcount : (analyze_features f txid now).flag_count = (detect_base f).length := by
      rw [analyze_features_flag_count, hflags, hfilter]
    refine ⟨by rw [hflags]; exact hbe, ?_, analyze_features_flag_count f txid now, ?_⟩
    · constructor
      · intro h; exact absurd h hnotclean
      · intro hr; exact absurd ((detect_base_eq_nil f).mpr hr) hb
    · rw [hcount]
      constructor
      · intro h; exact absurd (List.length_eq_zero.mp h) hb
      · intro h; exact absurd h hnotclean

/-- C5: the sanctioned-country flag and the high-risk-country flag never
both occur in a flag list: the high-risk flag is emitted only when the
country is not sanctioned. -/
theorem sanctioned_high_risk_flags_exclusive :
    ∀ f : Features,
      ((detect_flags f).any (fun g => g.code == "sanctioned_country") &&
       (detect_flags f).any (fun g => g.code == "high_risk_country")) = false := by
  intro f
  by_cases hb : detect_base f = []
  · have hflags : detect_flags f = [clean_flag] := by simp [detect_flags, hb]
    rw [hflags]; decide
  · have hbe : (detect_base f).isEmpty = false := by
      cases hdb : detect_base f with
      | nil => exact absurd hdb hb
      | cons a l => rfl
    have hflags : detect_flags f = detect_base f := by simp [detect_flags, hbe]
    rw [hflags]
    cases hs : f.is_sanctioned
    · have h1 : (detect_base f).any (fun g => g.code == "sanctioned_country") = false := by
        simp [detect_base, List.any_append, any_flagIf, hs, flag_sanctioned,
          flag_high_risk_country, flag_night, flag_threshold, flag_structuring,
          flag_new_account_large, flag_high_velocity, flag_incomplete_kyc,
          flag_repeat_offender, flag_crypto_highrisk, flag_pep, flag_round_amount, fatfDesc]
      rw [h1, Bool.false_and]
    · have h2 : (detect_base f).any (fun g => g.code == "high_risk_country") = false := by
        simp [detect_base, List.any_append, any_flagIf, hs, flag_sanctioned,
          flag_high_risk_country, flag_night, flag_threshold, flag_structuring,
          flag_new_account_large, flag_high_velocity, flag_incomplete_kyc,
          flag_repeat_offender, flag_crypto_highrisk, flag_pep, flag_round_amount, fatfDesc]
      rw [h2, Bool.and_false]

/-- C9: the analysis pipeline is deterministic — two runs of
`analyze_transaction` on the same raw input, with different generated ids
and clock readings, agree on score, tier, per-tree breakdown, flag list,
flag count and recommendation. -/
theorem analyze_transaction_deterministic :
    ∀ (data : RawTx) (g1 g2 : Nat) (n1 n2 : String),
      (analyze_transaction data g1 n1).map
        (fun r => (r.score, r.risk_level, r.tree_scores, r.flags, r.flag_count,
                   r.recommendation))
      = (analyze_transaction data g2 n2).map
        (fun r => (r.score, r.risk_level, r.tree_scores, r.flags, r.flag_count,
                   r.recommendation)) := by
  intro data g1 g2 n1 n2
  unfold analyze_transaction
  cases extract_features data <;> rfl

theorem sanctioned_mem_high_risk :
    ∀ c, c ∈ SANCTIONED_COUNTRIES → c ∈ HIGH_RISK_COUNTRIES := by
  intro c hc
  fin_cases hc <;> decide

unseal Rat.add Rat.mul Rat.inv Rat.sub in
/-- C7: every sanctioned country is also high-risk in the reference data,
so for a crypto transaction to a sanctioned country both the
crypto+high-risk bonus (+55) and the crypto+sanctioned bonus (+60) fire in
Tree 3, and the tree returns exactly 100 (clamped) whatever the other
conditions. -/
theorem crypto_sanctioned_tree3_full :
    (∀ c, c ∈ SANCTIONED_COUNTRIES → c ∈ HIGH_RISK_COUNTRIES) ∧
    (∀ f : Features, f.tx_type = "crypto" → f.is_sanctioned = true →
      tree_type_country_combo f = 100) := by
  refine ⟨sanctioned_mem_high_risk, ?_⟩
  intro f htype hs
  have hhr : f.is_high_risk = true := by
    simp only [Features.is_high_risk, decide_eq_true_eq]
    refine sanctioned_mem_high_risk _ ?_
    simpa only [Features.is_sanctioned, decide_eq_true_eq] using hs
  have e1 : ("crypto" == "cash") = false := by decide
  have e2 : ("crypto" == "wire") = false := by decide
  have e3 : ("crypto" == "insurance") = false := by decide
  have e4 : ("crypto" == "crypto") = true := by decide
  cases hn : f.is_night <;>
    simp only [tree_type_country_combo, htype, hs, hhr, hn, e1, e2, e3, e4,
      Bool.true_and, Bool.false_and, Bool.and_true, Bool.and_false,
      if_true, if_false] <;> decide

/-- Witness for C7: the subset fact applied at country "ir", and Tree 3
evaluated at a concrete crypto+sanctioned transaction with no other tree-3
condition active. -/
theorem crypto_sanctioned_tree3_full_witness :
    cryptoSanctionedExample.tx_type = "crypto" ∧
    cryptoSanctionedExample.is_sanctioned = true ∧
    tree_type_country_combo cryptoSanctionedExample = 100 ∧
    "ir" ∈ HIGH_RISK_COUNTRIES :=
  ⟨rfl, by decide,
   crypto_sanctioned_tree3_full.2 cryptoSanctionedExample rfl (by decide),
   crypto_sanctioned_tree3_full.1 "ir" (by decide)⟩

/-- C8: a KYC input whose lowercased name contains "putin vladimir" yields
sanctions_match=true, risk_score ≥ 90, tier CRITICAL, cdd_level "EDD" and
str_required=true, whatever the other fields hold; and in every KYC result
str_required equals sanctions_match. -/
theorem kyc_sanctions_critical :
    (∀ (d : RawKyc) (now : String),
      strIn "putin vladimir" (kyc_name d) = true →
      ((analyze_kyc d now).sanctions_match = true ∧
       90 ≤ (analyze_kyc d now).risk_score ∧
       (analyze_kyc d now).risk_level = "CRITICAL" ∧
       (analyze_kyc d now).cdd_level = "EDD" ∧
       (analyze_kyc d now).str_required = true)) ∧
    (∀ (d : RawKyc) (now : String),
      (analyze_kyc d now).str_required = (analyze_kyc d now).sanctions_match) := by
  constructor
  · intro d now h
    have hhit : kyc_sanctions_hit d = true := by
      unfold kyc_sanctions_hit
      rw [List.any_eq_true]
      exact ⟨"putin vladimir", by decide, h⟩
    have hscore : 90 ≤ kyc_risk_score d := by
      unfold kyc_risk_score
      simp only [hhit, if_true]
      split_ifs <;> omega
    have hlevel : kyc_risk_level_of (kyc_risk_score d) = "CRITICAL" := by
      unfold kyc_risk_level_of
      rw [if_pos (by omega)]
    have hmin : 90 ≤ pyMinInt (kyc_risk_score d) 100 := by
      unfold pyMinInt
      split_ifs <;> omega
    have hcdd : (analyze_kyc d now).cdd_level =
        if kyc_risk_level_of (kyc_risk_score d) = "CRITICAL" ∨
           kyc_risk_level_of (kyc_risk_score d) = "HIGH"
        then "EDD" else "Standard CDD" := rfl
    refine ⟨hhit, hmin, hlevel, ?_, hhit⟩
    rw [hcdd, hlevel]
    simp
  · intro d now
    rfl

/-- Witness for C8: the sanctions path applied at a concrete profile whose
name contains the sanctioned entity. -/
theorem kyc_sanctions_critical_witness :
    strIn "putin vladimir" (kyc_name putinKyc) = true ∧
    ((analyze_kyc putinKyc "2024-01-01T00:00:00").sanctions_match = true ∧
     90 ≤ (analyze_kyc putinKyc "2024-01-01T00:00:00").risk_score ∧
     (analyze_kyc putinKyc "2024-01-01T00:00:00").risk_level = "CRITICAL" ∧
     (analyze_kyc putinKyc "2024-01-01T00:00:00").cdd_level = "EDD" ∧
     (analyze_kyc putinKyc "2024-01-01T00:00:00").str_required = true) :=
  ⟨by decide, kyc_sanctions_critical.1 putinKyc "2024-01-01T00:00:00" (by decide)⟩

/-- C10 (implicit): whenever a KYC result has str_required=true, its CDD
level is "EDD" — a sanctions match adds +90, which forces tier CRITICAL
and hence enhanced due diligence. -/
theorem str_required_implies_edd :
    ∀ (d : RawKyc) (now : String),
      (analyze_kyc d now).str_required = true →
      (analyze_kyc d now).cdd_level = "EDD" := by
  intro d now h
  have hhit : kyc_sanctions_hit d = true := h
  have hscore : 90 ≤ kyc_risk_score d := by
    unfold kyc_risk_score
    simp only [hhit, if_true]
    split_ifs <;> omega
  have hlevel : kyc_risk_level_of (kyc_risk_score d) = "CRITICAL" := by
    unfold kyc_risk_level_of
    rw [if_pos (by omega)]
  have hcdd : (analyze_kyc d now).cdd_level =
      if kyc_risk_level_of (kyc_risk_score d) = "CRITICAL" ∨
         kyc_risk_level_of (kyc_risk_score d) = "HIGH"
      then "EDD" else "Standard CDD" := rfl
  rw [hcdd, hlevel]
  simp

/-- Witness for C10: applied at a concrete profile with a sanctions hit. -/
theorem str_required_implies_edd_witness :
    (analyze_kyc putinKyc "T").str_required = true ∧
    (analyze_kyc putinKyc "T").cdd_level = "EDD" :=
  ⟨by decide, str_required_implies_edd putinKyc "T" (by decide)⟩

/-- C6 counterexample: `extract_features` is not total — a present but
non-numeric `amount` field ("abc") raises a `ValueError` instead of being
replaced by the default. -/
theorem extract_features_raises :
    extract_features invalidAmountTx = Except.error "ValueError" ∧
    exceptIsOk (extract_features invalidAmountTx) = false := by
  exact ⟨by decide, by decide⟩

/-- C6 (amended): missing fields are defaulted exactly as claimed (amount 0,
hour 12, country "", type "", tx count 0, age 12 months, KYC verified,
flags false) — the empty dict extracts to that FeatureSet — and extraction
succeeds whenever every present field is convertible to its target type;
only a present unconvertible value makes it raise. -/
theorem extract_features_defaults_total :
    (extract_features {} = Except.ok
      { amount := 0, country := "", tx_type := "", hour := 12, tx_count := 0,
        account_age := 12, kyc_status := 1, prev_flagged := false, is_pep := false }) ∧
    (∀ data : RawTx, convertibleTx data = true → exceptIsOk (extract_features data) = true) := by
  constructor
  · decide
  · intro data h
    simp only [convertibleTx, Bool.and_eq_true] at h
    obtain ⟨⟨⟨⟨h1, h2⟩, h3⟩, h4⟩, h5⟩ := h
    rcases Option.isSome_iff_exists.mp h1 with ⟨a1, e1⟩
    rcases Option.isSome_iff_exists.mp h2 with ⟨a2, e2⟩
    rcases Option.isSome_iff_exists.mp h3 with ⟨a3, e3⟩
    rcases Option.isSome_iff_exists.mp h4 with ⟨a4, e4⟩
    rcases Option.isSome_iff_exists.mp h5 with ⟨a5, e5⟩
    simp only [extract_features, orRaise, e1, e2, e3, e4, e5]
    rfl

/-- Witness for C6 (amended): the totality clause applied at a concrete
convertible input. -/
theorem extract_features_defaults_total_witness :
    convertibleTx scenarioA = true ∧ exceptIsOk (extract_features scenarioA) = true :=
  ⟨by decide, extract_features_defaults_total.2 scenarioA (by decide)⟩

unseal Rat.add Rat.mul Rat.inv Rat.sub in
/-- C1 counterexample: on Scenario A the engine does NOT return CRITICAL
with score ≥ 80 — the weighted ensemble score is 71.5, rounded to 72,
hence tier HIGH. -/
theorem scenarioA_claim_false :
    (analyze_transaction scenarioA 12345 "2024-01-01T00:00:00").map
      (fun r => (decide (r.risk_level = "CRITICAL" ∧ 80 ≤ r.score), r.risk_level, r.score))
    = Except.ok (false, "HIGH", 72) := by decide

unseal Rat.add Rat.mul Rat.inv Rat.sub in
/-- C1 (amended): on Scenario A the engine returns tier HIGH with final
score 72, and the flag list contains "sanctioned_country" and
"threshold_breach". -/
theorem scenarioA_analysis :
    (analyze_transaction scenarioA 12345 "2024-01-01T00:00:00").map
      (fun r => (r.risk_level, r.score,
        r.flags.any (fun g => g.code == "sanctioned_country"),
        r.flags.any (fun g => g.code == "threshold_breach")))
    = Except.ok ("HIGH", 72, true, true) := by decide

unseal Rat.add Rat.mul Rat.inv Rat.sub in
/-- C2 counterexample: on Scenario B the engine does NOT return tier HIGH —
the weighted ensemble score is 12.25, rounded to 12, hence tier LOW. -/
theorem scenarioB_claim_false :
    (analyze_transaction scenarioB 12345 "2024-01-01T00:00:00").map
      (fun r => (decide (r.risk_level = "HIGH"), r.risk_level, r.score))
    = Except.ok (false, "LOW", 12) := by decide

unseal Rat.add Rat.mul Rat.inv Rat.sub in
/-- C2 (amended): on Scenario B the extracted features have
near_threshold=true and above_threshold=false, the flag list contains
"structuring_suspected", and the engine returns tier LOW with final
score 12. -/
theorem scenarioB_analysis :
    ((extract_features scenarioB).map (fun f => (f.near_threshold, f.above_threshold))
      = Except.ok (true, false)) ∧
    (analyze_transaction scenarioB 12345 "2024-01-01T00:00:00").map
      (fun r => (r.risk_level, r.score,
        r.flags.any (fun g => g.code == "structuring_suspected")))
    = Except.ok ("LOW", 12, true) := by
  exact ⟨by decide, by decide⟩

end ShieldAML
